import Mathlib

/-!
Shallow embedding of the scenario engine of go-resilience-mock:
the per-scenario circuit breaker (pkg/faults, `checkCircuitBreaker` /
`updateCircuitBreaker`), the response selector and fault pipeline of
`HandleScenario` (pkg/faults/matching.go), the request matcher
(`matchesRequest`), the path-template matcher and catch-all dispatcher
(pkg/server, `matchPath` and `NewRouter`), the history buffer and the
request-ID middleware (`loggingMiddleware`, `requestIDMiddleware`).

Conventions: Go `time.Time` instants and `time.Duration` values are
modelled as `Int` nanoseconds (`time.Since(t)` becomes `now - t`);
Go `float64` probabilities are modelled as `ℚ` (the engine only ever
compares probabilities, never computes with them, and IEEE comparisons
of finite doubles agree with the rational order); Go strings are Lean
`String`s, manipulated through their character lists (the repository
only handles ASCII paths and patterns).
-/

namespace ResilienceMock

/-- CircuitBreakerConfig (pkg/config): failure threshold, success
threshold and open-state timeout of a scenario's breaker. Go `int` and
`time.Duration` fields become `Int`. -/
structure CircuitBreakerConfig where
  failureThreshold : Int
  successThreshold : Int
  timeout : Int
  deriving DecidableEq

/-- CircuitBreakerState (pkg/config): runtime state of a scenario's
breaker. The Go field `State` is a string ("closed", "open",
"half-open"); we keep it as a string so that the comparisons in the
code are reproduced exactly. -/
structure CircuitBreakerState where
  state : String
  failures : Int
  successes : Int
  lastFailure : Int
  lastTransition : Int
  deriving DecidableEq

/-- checkCircuitBreaker (pkg/faults): returns whether the request is
allowed together with the possibly updated state. In Go the state is
mutated in place; here the new state is returned. An open breaker past
its timeout moves to half-open, records the transition instant and
admits the probe request. -/
def checkCircuitBreaker (cfg : CircuitBreakerConfig) (st : CircuitBreakerState)
    (now : Int) : Bool × CircuitBreakerState :=
  if st.state = "open" then
    if now - st.lastTransition > cfg.timeout then
      (true, { st with state := "half-open", lastTransition := now })
    else
      (false, st)
  else
    (true, st)

/-- updateCircuitBreaker (pkg/faults): updates the state after a request
outcome. `success` is the breaker's notion of success (final status
below 500, or a probability-gate fall-through). -/
def updateCircuitBreaker (cfg : CircuitBreakerConfig) (st : CircuitBreakerState)
    (success : Bool) (now : Int) : CircuitBreakerState :=
  if st.state = "open" then
    st
  else if st.state = "half-open" then
    if success then
      let st := { st with successes := st.successes + 1 }
      if st.successes ≥ cfg.successThreshold then
        { st with state := "closed", failures := 0, successes := 0, lastTransition := now }
      else
        st
    else
      { st with state := "open", lastTransition := now }
  else
    if !success then
      let st := { st with failures := st.failures + 1, lastFailure := now }
      if st.failures ≥ cfg.failureThreshold then
        { st with state := "open", lastTransition := now }
      else
        st
    else
      { st with failures := 0 }

/-- MatchConfig (pkg/config): optional per-scenario request predicates.
`body` holds the raw bytes of the JSONBody pattern as a string. -/
structure MatchConfig where
  headers : List (String × String)
  query : List (String × String)
  body : String
  deriving DecidableEq

/-- Response (pkg/config): one entry of a scenario's rotating response
list. `delay` is nanoseconds, `probability` is the Go float64 modelled
as a rational. -/
structure Response where
  status : Int
  delay : Int
  delayRange : String
  body : String
  headers : List (String × String)
  gzip : Bool
  probability : ℚ
  deriving DecidableEq

/-- Scenario (pkg/config): a binding from (path template, method) to an
ordered response list, optional matcher, breaker config and runtime
breaker state. The Go `Index` field is an `int32` cursor that only ever
holds values in `[0, len(responses))`, so it is modelled as `Nat`. -/
structure Scenario where
  path : String
  method : String
  matchRules : MatchConfig
  responses : List Response
  circuitBreaker : CircuitBreakerConfig
  cbState : CircuitBreakerState
  index : Nat
  deriving DecidableEq

/-- Fallback value used by `List.getD`; Go would panic on an
out-of-range cursor, which no claim exercises. -/
def defaultResponse : Response :=
  { status := 0, delay := 0, delayRange := "", body := "", headers := []
    gzip := false, probability := 0 }

/-- Response currently under the scenario's cursor
(`scenario.Responses[idx]` in `HandleScenario`). -/
def selectedResponse (s : Scenario) : Response :=
  s.responses.getD s.index defaultResponse

/-- Outcome of one `HandleScenario` execution for a matched scenario:
a 503 short-circuit from an open breaker, a probability-gate
fall-through to the echo handler, or a served response. -/
inductive StepOutcome where
  | blocked
  | echoed
  | served (r : Response)
  deriving DecidableEq

/-- Result of one `HandleScenario` execution: the outcome, the updated
scenario (cursor and breaker state), and whether the
`mock_faults_injected_total` counter was incremented with the `delay`
resp. `http_error` type label. -/
structure StepResult where
  outcome : StepOutcome
  scenario : Scenario
  delayMetric : Bool
  httpErrorMetric : Bool
  deriving DecidableEq

/-- handleScenarioStep: the body of `HandleScenario`
(pkg/faults/matching.go) from the circuit-breaker admission check to
the breaker update, for an already matched scenario. `now` stands for
the wall clock during the request and `draw` for the
`mrand.Float64()` sample of the probability gate. -/
def handleScenarioStep (s : Scenario) (now : Int) (draw : ℚ) : StepResult :=
  -- circuit breaker admission: only armed when FailureThreshold > 0
  let checked :=
    if s.circuitBreaker.failureThreshold > 0 then
      checkCircuitBreaker s.circuitBreaker s.cbState now
    else
      (true, s.cbState)
  if checked.1 = false then
    -- http.Error 503, return: no response selected, cursor untouched
    { outcome := .blocked, scenario := { s with cbState := checked.2 }
      delayMetric := false, httpErrorMetric := false }
  else
    let s := { s with cbState := checked.2 }
    let idx := s.index
    let response := s.responses.getD idx defaultResponse
    let nextIdx := (idx + 1) % s.responses.length
    let s := { s with index := nextIdx }
    if response.probability > 0 ∧ response.probability < 1 ∧ draw > response.probability then
      -- probability gate fell through: echo, record a breaker success
      { outcome := .echoed
        scenario := { s with cbState := updateCircuitBreaker s.circuitBreaker s.cbState true now }
        delayMetric := false, httpErrorMetric := false }
    else
      let delayInc := decide (response.delay > 0)
      let isFailure := decide (response.status ≥ 500)
      let httpErrorInc := if response.status ≥ 500 then true else decide (response.status ≥ 400)
      let st2 :=
        if s.circuitBreaker.failureThreshold > 0 then
          updateCircuitBreaker s.circuitBreaker s.cbState (!isFailure) now
        else
          s.cbState
      { outcome := .served response, scenario := { s with cbState := st2 }
        delayMetric := delayInc, httpErrorMetric := httpErrorInc }

/-- Iterated `HandleScenario` executions: each element of `inputs` is
the wall clock and the probability draw of one request. -/
def runSteps (s : Scenario) : List (Int × ℚ) → Scenario
  | [] => s
  | (t, d) :: rest => runSteps (handleScenarioStep s t d).scenario rest

/-! ## Path templates (pkg/server, `matchPath` and the catch-all of `NewRouter`) -/

/-- Helper for `strings.Trim(s, cutset)` with a one-character cutset:
removes every leading and trailing occurrence of `c`. -/
def trimCharList (c : Char) (l : List Char) : List Char :=
  ((l.dropWhile (fun x => x == c)).reverse.dropWhile (fun x => x == c)).reverse

/-- Helper for `strings.Split(s, sep)` with a one-character separator,
accumulating the current segment in reverse. -/
def splitCharAux (c : Char) : List Char → List Char → List (List Char)
  | [], acc => [acc.reverse]
  | x :: xs, acc =>
    if x == c then acc.reverse :: splitCharAux c xs [] else splitCharAux c xs (x :: acc)

/-- strings.Split on "/" as used by `matchPath`. -/
def splitSlash (l : List Char) : List (List Char) :=
  splitCharAux '/' l []

/-- Segment test `strings.HasPrefix(part, "{") && strings.HasSuffix(part, "}")`
of `matchPath`. -/
def isTemplateSeg (t : List Char) : Bool :=
  match t with
  | [] => false
  | c :: _ => c == '\x7b' && (match t.getLast? with
                              | some d => d == '\x7d'
                              | none => false)

/-- Variable name `part[1 : len(part)-1]` of a template segment. -/
def varKey (t : List Char) : String :=
  String.mk (t.drop 1).dropLast

/-- Go map assignment `vars[key] = value` on an association list:
replaces an existing binding, otherwise appends. -/
def upsertVar : List (String × String) → String → String → List (String × String)
  | [], k, v => [(k, v)]
  | (k', v') :: rest, k, v =>
    if k' = k then (k', v) :: rest else (k', v') :: upsertVar rest k v

/-- Lookup `vars[name]` in the extracted variables. -/
def lookupVar (vs : List (String × String)) (k : String) : Option String :=
  (vs.find? (fun kv => kv.1 == k)).map (fun kv => kv.2)

/-- Segment loop of `matchPath`: walks template and path segments in
lockstep, capturing `\x7bname\x7d` segments and requiring the others to
match exactly. -/
def matchSegsAux : List (List Char) → List (List Char) → List (String × String) →
    Option (List (String × String))
  | [], [], vs => some vs
  | t :: ts, p :: ps, vs =>
    if isTemplateSeg t then
      matchSegsAux ts ps (upsertVar vs (varKey t) (String.mk p))
    else if t = p then
      matchSegsAux ts ps vs
    else
      none
  | _, _, _ => none

/-- matchPath (pkg/server): checks whether a request path matches a
template path such as "/users/\x7bid\x7d" and returns the extracted
variables. Both strings are trimmed of leading and trailing slashes and
split on "/"; a length mismatch fails immediately. -/
def matchPath (template path : String) : Option (List (String × String)) :=
  let tmplParts := splitSlash (trimCharList '/' template.toList)
  let pathParts := splitSlash (trimCharList '/' path.toList)
  if tmplParts.length = pathParts.length then
    matchSegsAux tmplParts pathParts []
  else
    none

/-- Whether a template path contains a brace, the
`strings.Contains(tmplPath, "\x7b")` test of the catch-all route. -/
def containsBrace (s : String) : Bool :=
  s.toList.any (fun c => c == '\x7b')

/-- Result of the catch-all dispatcher of `NewRouter`: an exact
registry hit, a template match with its variables, or a 404. -/
inductive RouteResult where
  | exact (key : String)
  | template (tmpl : String) (vars : List (String × String))
  | notFound
  deriving DecidableEq

/-- Key split `strings.Split(scenarioKey, "_")`: the catch-all only
considers keys made of exactly one template and one method. -/
def keyParts (k : String) : List String :=
  (splitCharAux '_' k.toList []).map (fun l => String.mk l)

/-- resolveCatchAll: the catch-all handler of `NewRouter` (pkg/server).
Tries the exact key `path + "_" + method` first, then iterates the
registry keys, keeping the first template key with matching method,
a brace in its path, and a successful `matchPath`. With no match the
request is surfaced as 404. -/
def resolveCatchAll (keys : List String) (path method : String) : RouteResult :=
  if keys.contains (path ++ "_" ++ method) then
    .exact (path ++ "_" ++ method)
  else
    match keys.findSome? (fun k =>
        match keyParts k with
        | [tmplPath, m] =>
          if m = method ∧ containsBrace tmplPath then
            (matchPath tmplPath path).map (fun vs => (tmplPath, vs))
          else
            none
        | _ => none) with
    | some (tmpl, vs) => .template tmpl vs
    | none => .notFound

/-! ## Request matcher (pkg/faults/matching.go, `matchesRequest`) -/

/-- Incoming request as the matcher sees it: multi-valued headers and
query parameters, and an optional body (`none` models a nil body). -/
structure HttpRequest where
  method : String
  path : String
  headers : List (String × List String)
  query : List (String × List String)
  body : Option String
  deriving DecidableEq

/-- First value for a key, Go's `http.Header.Get` / `url.Values.Get`:
the empty string when the key is absent or has no values. Header-name
canonicalization is abstracted by using exact keys. -/
def getFirst (l : List (String × List String)) (k : String) : String :=
  match l.find? (fun kv => kv.1 == k) with
  | some (_, v :: _) => v
  | _ => ""

/-- Substring test `strings.Contains(hay, needle)`. -/
def containsSub (needle : List Char) : List Char → Bool
  | [] => needle.isEmpty
  | h :: t => needle.isPrefixOf (h :: t) || containsSub needle t

/-- Trim of surrounding double quotes,
`strings.Trim(expectedBody, "\"")`. -/
def trimQuotes (l : List Char) : List Char :=
  trimCharList '"' l

/-- matchesRequest (pkg/faults/matching.go): header predicates, query
predicates, then the body pattern. A pattern of the form `/…/` (after
quote-trimming) is a regular expression, delegated to the abstract
engine `rx` standing for `regexp.MatchString`; any other non-empty
pattern is a substring test. An empty pattern skips the body check. -/
def matchesRequest (rx : String → String → Bool) (m : MatchConfig)
    (r : HttpRequest) : Bool :=
  m.headers.all (fun kv => getFirst r.headers kv.1 == kv.2) &&
  m.query.all (fun kv => getFirst r.query kv.1 == kv.2) &&
  (if m.body.length > 0 then
    match r.body with
    | none => false
    | some b =>
      let expected := trimQuotes m.body.toList
      if expected.length > 2 ∧ expected.headD ' ' = '/' ∧ expected.getLastD ' ' = '/' then
        rx (String.mk (expected.drop 1).dropLast) b
      else
        containsSub expected b.toList
  else
    true)

/-- First matching scenario of the candidate list, the selection loop
of `HandleScenario`. -/
def findScenario (rx : String → String → Bool) (l : List Scenario)
    (r : HttpRequest) : Option Scenario :=
  l.find? (fun s => matchesRequest rx s.matchRules r)

/-- Dispatch decision of `HandleScenario` after the candidate loop:
serve the first matching scenario, or fall back to the echo handler. -/
inductive Dispatch where
  | useScenario (s : Scenario)
  | echo
  deriving DecidableEq

/-- dispatchScenarios: `HandleScenario`'s fallback-to-echo decision. -/
def dispatchScenarios (rx : String → String → Bool) (l : List Scenario)
    (r : HttpRequest) : Dispatch :=
  match findScenario rx l r with
  | some s => .useScenario s
  | none => .echo

/-! ## History buffer (pkg/server, `loggingMiddleware`) -/

/-- RequestRecord (pkg/config): the fields captured per request. -/
structure RequestRecord where
  id : String
  timestamp : Int
  method : String
  path : String
  query : String
  statusCode : Int
  bodySnippet : String
  deriving DecidableEq

/-- recordRequest: the history append of `loggingMiddleware`. When the
buffer has reached `HistorySize` the oldest record is dropped
(`history = history[1:]`) before the new record is appended. -/
def recordRequest (cap : Int) (hist : List RequestRecord)
    (rec : RequestRecord) : List RequestRecord :=
  (if cap ≤ (hist.length : Int) then hist.drop 1 else hist) ++ [rec]

/-! ## Request-ID middleware (pkg/server, `requestIDMiddleware` and the
record construction of `loggingMiddleware`) -/

/-- Result of `requestIDMiddleware` for one request: the ID placed in
the context, the `X-Request-ID` response header, and the new value of
the global counter. -/
structure ReqIDResult where
  id : String
  respHeader : String
  counter : Nat
  deriving DecidableEq

/-- requestIDMiddleware (pkg/server): adopts a non-empty incoming
`X-Request-ID` header (`incoming` is the result of `Header.Get`, so ""
means absent); otherwise assigns the decimal rendering of an atomic
increment of the global `uint64` counter, which wraps at `2 ^ 64`.
Either way the ID is echoed on the response header and stored in the
request context. -/
def requestIDStep (counter : Nat) (incoming : String) : ReqIDResult :=
  if incoming = "" then
    let counter := (counter + 1) % 2 ^ 64
    { id := toString counter, respHeader := toString counter, counter := counter }
  else
    { id := incoming, respHeader := incoming, counter := counter }

/-- Record-ID retrieval of `loggingMiddleware`: the string stored in
the request context under the request-ID key, or "unknown" if the
middleware did not run. -/
def loggingRecordID (ctxVal : Option String) : String :=
  match ctxVal with
  | some v => v
  | none => "unknown"

/-- Composition of `requestIDMiddleware` (outermost, per `NewRouter`)
with the record construction of `loggingMiddleware`: the ID of the
stored history record for one request. -/
def pipelineRecordID (counter : Nat) (incoming : String) : String :=
  loggingRecordID (some (requestIDStep counter incoming).id)

/-! ## Spec-side predicates for the path-matching claim -/

/-- Segment compatibility as the spec words it: equal segment counts,
template segments match anything, other segments must be equal. -/
def specSegMatch : List (List Char) → List (List Char) → Bool
  | [], [] => true
  | t :: ts, p :: ps => (if isTemplateSeg t then true else t = p) && specSegMatch ts ps
  | _, _ => false

/-- The claim's reading of the template matcher, applied to the raw
`strings.Split` of the two paths on "/" with no slash normalization. -/
def claimRawSegMatch (template path : String) : Bool :=
  specSegMatch (splitSlash template.toList) (splitSlash path.toList)

/-- Variable captures of a segment-wise match: each template segment
paired with the path segment standing under it. -/
def captures (tp pp : List (List Char)) : List (String × String) :=
  (tp.zip pp).filterMap
    (fun x => if isTemplateSeg x.1 then some (varKey x.1, String.mk x.2) else none)

/-- Segments of a path after the slash normalization performed by
`matchPath`. -/
def normSegs (s : String) : List (List Char) :=
  splitSlash (trimCharList '/' s.toList)

/-! ## Helper lemmas -/

/-- Characterization of the admission check when the breaker is not in
the open state: the request is admitted and the state is untouched. -/
theorem checkCircuitBreaker_notOpen (cfg : CircuitBreakerConfig)
    (st : CircuitBreakerState) (now : Int) (h : st.state ≠ "open") :
    checkCircuitBreaker cfg st now = (true, st) := by
  unfold checkCircuitBreaker
  rw [if_neg h]

/-- Characterization of `handleScenarioStep` when the breaker state is
not "open": the request is admitted, the cursor advances, and the
outcome is decided by the probability gate. -/
theorem handleScenarioStep_notOpen (s : Scenario) (now : Int) (draw : ℚ)
    (h : s.cbState.state ≠ "open") :
    handleScenarioStep s now draw =
      (let response := s.responses.getD s.index defaultResponse
       let s' : Scenario := { s with index := (s.index + 1) % s.responses.length }
       if response.probability > 0 ∧ response.probability < 1 ∧ draw > response.probability then
         { outcome := .echoed
           scenario := { s' with
             cbState := updateCircuitBreaker s.circuitBreaker s.cbState true now }
           delayMetric := false, httpErrorMetric := false }
       else
         { outcome := .served response
           scenario := { s' with
             cbState :=
               if s.circuitBreaker.failureThreshold > 0 then
                 updateCircuitBreaker s.circuitBreaker s.cbState
                   (!decide (500 ≤ response.status)) now
               else
                 s.cbState }
           delayMetric := decide (response.delay > 0)
           httpErrorMetric :=
             if response.status ≥ 500 then true else decide (response.status ≥ 400) }) := by
  unfold handleScenarioStep
  rw [checkCircuitBreaker_notOpen _ _ _ h, ite_self]
  rfl

/-- Characterization of `handleScenarioStep` for an armed scenario with
an open breaker still inside its timeout: short-circuit with the
scenario untouched. -/
theorem handleScenarioStep_open_within (s : Scenario) (now : Int) (draw : ℚ)
    (harm : 0 < s.circuitBreaker.failureThreshold)
    (hopen : s.cbState.state = "open")
    (hwithin : now - s.cbState.lastTransition ≤ s.circuitBreaker.timeout) :
    handleScenarioStep s now draw =
      { outcome := .blocked, scenario := s, delayMetric := false
        httpErrorMetric := false } := by
  unfold handleScenarioStep checkCircuitBreaker
  rw [if_pos harm, if_pos hopen,
    if_neg (show ¬(now - s.cbState.lastTransition > s.circuitBreaker.timeout) by omega)]
  rfl

/-- C2 (part): admission of an open breaker in `checkCircuitBreaker`. -/
theorem checkCircuitBreaker_open (cfg : CircuitBreakerConfig)
    (st : CircuitBreakerState) (now : Int) (hst : st.state = "open") :
    (now - st.lastTransition ≤ cfg.timeout →
      checkCircuitBreaker cfg st now = (false, st)) ∧
    (cfg.timeout < now - st.lastTransition →
      checkCircuitBreaker cfg st now =
        (true, { st with state := "half-open", lastTransition := now })) := by
  unfold checkCircuitBreaker
  rw [if_pos hst]
  constructor
  · intro hle
    rw [if_neg (by omega)]
  · intro hlt
    rw [if_pos (by omega)]

/-- Success updates in the closed state with both counters at zero keep
the breaker closed with both counters at zero. -/
theorem closed_zero_success_run (cfg : CircuitBreakerConfig) :
    ∀ (ts : List Int) (st : CircuitBreakerState),
    st.state = "closed" → st.failures = 0 → st.successes = 0 →
    (let st' := ts.foldl (fun acc u => updateCircuitBreaker cfg acc true u) st
     st'.state = "closed" ∧ st'.failures = 0 ∧ st'.successes = 0)
  | [], st => by
    intro h1 h2 h3
    exact ⟨h1, h2, h3⟩
  | t :: ts, st => by
    intro h1 h2 h3
    have hne : st.state ≠ "open" := by rw [h1]; decide
    have hne' : st.state ≠ "half-open" := by rw [h1]; decide
    have hstep : updateCircuitBreaker cfg st true t = { st with failures := 0 } := by
      unfold updateCircuitBreaker
      rw [if_neg hne, if_neg hne']
      rfl
    simpa [List.foldl_cons, hstep] using
      closed_zero_success_run cfg ts { st with failures := 0 } h1 rfl h3

/-- Consecutive success updates from the half-open state close the
breaker and reset both counters, as soon as the number of updates can
carry the success counter to the threshold. -/
theorem half_open_success_run (cfg : CircuitBreakerConfig) :
    ∀ (ts : List Int) (st : CircuitBreakerState),
    st.state = "half-open" →
    1 ≤ ts.length →
    cfg.successThreshold ≤ st.successes + ts.length →
    (let st' := ts.foldl (fun acc u => updateCircuitBreaker cfg acc true u) st
     st'.state = "closed" ∧ st'.failures = 0 ∧ st'.successes = 0)
  | [], st => by
    intro _ h2 _
    simp at h2
  | t :: ts, st => by
    intro h1 _ h3
    have hne : st.state ≠ "open" := by rw [h1]; decide
    have h3l : cfg.successThreshold ≤ st.successes + (ts.length : Int) + 1 := by
      simp only [List.length_cons] at h3
      push_cast at h3
      omega
    by_cases hc : cfg.successThreshold ≤ st.successes + 1
    · have hstep : updateCircuitBreaker cfg st true t =
          { st with state := "closed", failures := 0, successes := 0
                    lastTransition := t } := by
        unfold updateCircuitBreaker
        rw [if_neg hne, if_pos h1, if_pos rfl,
          if_pos (show ({ st with successes := st.successes + 1 } :
            CircuitBreakerState).successes ≥ cfg.successThreshold from by
              show st.successes + 1 ≥ cfg.successThreshold
              omega)]
      simpa [List.foldl_cons, hstep] using
        closed_zero_success_run cfg ts _ rfl rfl rfl
    · have hstep : updateCircuitBreaker cfg st true t =
          { st with successes := st.successes + 1 } := by
        unfold updateCircuitBreaker
        rw [if_neg hne, if_pos h1, if_pos rfl,
          if_neg (show ¬(({ st with successes := st.successes + 1 } :
            CircuitBreakerState).successes ≥ cfg.successThreshold) from by
              show ¬(st.successes + 1 ≥ cfg.successThreshold)
              omega)]
      have hlen : 1 ≤ ts.length := by omega
      have h3' : cfg.successThreshold ≤
          ({ st with successes := st.successes + 1 } :
            CircuitBreakerState).successes + (ts.length : Int) := by
        show cfg.successThreshold ≤ st.successes + 1 + (ts.length : Int)
        omega
      simpa [List.foldl_cons, hstep] using
        half_open_success_run cfg ts { st with successes := st.successes + 1 }
          h1 hlen h3'

/-- Closed-state failure update: the failure counter advances and the
breaker opens exactly when it reaches the threshold. -/
theorem updateCircuitBreaker_closed_failure (cfg : CircuitBreakerConfig)
    (st : CircuitBreakerState) (now : Int) (h : st.state = "closed") :
    updateCircuitBreaker cfg st false now =
      (if st.failures + 1 ≥ cfg.failureThreshold then
        { st with failures := st.failures + 1, lastFailure := now
                  state := "open", lastTransition := now }
      else
        { st with failures := st.failures + 1, lastFailure := now }) := by
  unfold updateCircuitBreaker
  rw [if_neg (show ¬st.state = "open" by rw [h]; decide),
    if_neg (show ¬st.state = "half-open" by rw [h]; decide)]
  by_cases hc : st.failures + 1 ≥ cfg.failureThreshold
  · rw [if_pos hc]
    rfl
  · rw [if_neg hc]
    rfl

/-- Closed-state success update: the failure counter resets. -/
theorem updateCircuitBreaker_closed_success (cfg : CircuitBreakerConfig)
    (st : CircuitBreakerState) (now : Int) (h : st.state = "closed") :
    updateCircuitBreaker cfg st true now = { st with failures := 0 } := by
  unfold updateCircuitBreaker
  rw [if_neg (show ¬st.state = "open" by rw [h]; decide),
    if_neg (show ¬st.state = "half-open" by rw [h]; decide)]
  rfl

/-- Served-response characterization of `handleScenarioStep`: breaker
not open and probability gate not firing. -/
theorem handleScenarioStep_served (s : Scenario) (now : Int) (draw : ℚ)
    (h : s.cbState.state ≠ "open")
    (hgate : ¬((s.responses.getD s.index defaultResponse).probability > 0 ∧
        (s.responses.getD s.index defaultResponse).probability < 1 ∧
        draw > (s.responses.getD s.index defaultResponse).probability)) :
    handleScenarioStep s now draw =
      { outcome := .served (s.responses.getD s.index defaultResponse)
        scenario := { s with
          index := (s.index + 1) % s.responses.length
          cbState :=
            if s.circuitBreaker.failureThreshold > 0 then
              updateCircuitBreaker s.circuitBreaker s.cbState
                (!decide (500 ≤ (s.responses.getD s.index defaultResponse).status)) now
            else
              s.cbState }
        delayMetric := decide ((s.responses.getD s.index defaultResponse).delay > 0)
        httpErrorMetric :=
          if (s.responses.getD s.index defaultResponse).status ≥ 500 then true
          else decide ((s.responses.getD s.index defaultResponse).status ≥ 400) } := by
  rw [handleScenarioStep_notOpen s now draw h]
  exact if_neg hgate

/-- Echoed characterization of `handleScenarioStep`: breaker not open
and the probability gate fires. -/
theorem handleScenarioStep_echoed (s : Scenario) (now : Int) (draw : ℚ)
    (h : s.cbState.state ≠ "open")
    (hgate : (s.responses.getD s.index defaultResponse).probability > 0 ∧
        (s.responses.getD s.index defaultResponse).probability < 1 ∧
        draw > (s.responses.getD s.index defaultResponse).probability) :
    handleScenarioStep s now draw =
      { outcome := .echoed
        scenario := { s with
          index := (s.index + 1) % s.responses.length
          cbState := updateCircuitBreaker s.circuitBreaker s.cbState true now }
        delayMetric := false, httpErrorMetric := false } := by
  rw [handleScenarioStep_notOpen s now draw h]
  exact if_pos hgate

/-- Membership of the cursor's response in the response list. -/
theorem getD_mem_of_lt (l : List Response) (i : Nat) (d : Response)
    (h : i < l.length) : l.getD i d ∈ l := by
  rw [List.getD_eq_getElem?_getD, List.getElem?_eq_getElem h, Option.getD_some]
  exact List.getElem_mem h

/-! ## Claim theorems C2 and C3 -/

/-- C2: for a scenario whose breaker is open, a request within the
open-state timeout is short-circuited (the admission check returns
blocked, `HandleScenario` answers without selecting a response, and the
scenario — cursor included — is untouched), while a request after the
timeout moves the breaker to half-open, records a new `lastTransition`,
and is allowed through. -/
theorem C2_breaker_open_admission
    (cfg : CircuitBreakerConfig) (st : CircuitBreakerState) (now : Int)
    (s : Scenario) (t : Int) (d : ℚ)
    (hst : st.state = "open")
    (harm : 0 < s.circuitBreaker.failureThreshold)
    (hs : s.cbState.state = "open")
    (hwithin : t - s.cbState.lastTransition ≤ s.circuitBreaker.timeout) :
    (now - st.lastTransition ≤ cfg.timeout →
      checkCircuitBreaker cfg st now = (false, st)) ∧
    (cfg.timeout < now - st.lastTransition →
      checkCircuitBreaker cfg st now =
        (true, { st with state := "half-open", lastTransition := now })) ∧
    (handleScenarioStep s t d).outcome = .blocked ∧
    (handleScenarioStep s t d).scenario = s := by
  refine ⟨(checkCircuitBreaker_open cfg st now hst).1,
    (checkCircuitBreaker_open cfg st now hst).2, ?_, ?_⟩ <;>
      rw [handleScenarioStep_open_within s t d harm hs hwithin]

/-- Witness for C2 at a concrete open breaker. -/
theorem C2_breaker_open_admission_witness :
    checkCircuitBreaker ⟨2, 1, 100⟩ ⟨"open", 2, 0, 0, 10⟩ 50 =
      (false, ⟨"open", 2, 0, 0, 10⟩) ∧
    checkCircuitBreaker ⟨2, 1, 100⟩ ⟨"open", 2, 0, 0, 10⟩ 200 =
      (true, ⟨"half-open", 2, 0, 0, 200⟩) ∧
    (handleScenarioStep
      ⟨"/t", "GET", ⟨[], [], ""⟩, [⟨500, 0, "", "", [], false, 0⟩],
        ⟨2, 1, 100⟩, ⟨"open", 2, 0, 0, 10⟩, 0⟩ 50 0).outcome = .blocked := by
  have h := C2_breaker_open_admission ⟨2, 1, 100⟩ ⟨"open", 2, 0, 0, 10⟩ 50
    ⟨"/t", "GET", ⟨[], [], ""⟩, [⟨500, 0, "", "", [], false, 0⟩],
      ⟨2, 1, 100⟩, ⟨"open", 2, 0, 0, 10⟩, 0⟩ 50 0
    rfl (by decide) rfl (by decide)
  refine ⟨h.1 (by decide), ?_, h.2.2.1⟩
  have h2 := C2_breaker_open_admission ⟨2, 1, 100⟩ ⟨"open", 2, 0, 0, 10⟩ 200
    ⟨"/t", "GET", ⟨[], [], ""⟩, [⟨500, 0, "", "", [], false, 0⟩],
      ⟨2, 1, 100⟩, ⟨"open", 2, 0, 0, 10⟩, 0⟩ 50 0
    rfl (by decide) rfl (by decide)
  exact h2.2.1 (by decide)

/-- C3: from the half-open state, `successThreshold` consecutive
breaker successes close the breaker and reset both counters to zero,
while a single failure reopens it and records `lastTransition`. -/
theorem C3_half_open_recovery
    (cfg : CircuitBreakerConfig) (st : CircuitBreakerState) (t : Int)
    (ts : List Int)
    (hst : st.state = "half-open")
    (hthr : 0 < cfg.successThreshold)
    (hs0 : st.successes = 0)
    (hlen : (ts.length : Int) = cfg.successThreshold) :
    (let st' := ts.foldl (fun acc u => updateCircuitBreaker cfg acc true u) st
     st'.state = "closed" ∧ st'.failures = 0 ∧ st'.successes = 0) ∧
    updateCircuitBreaker cfg st false t =
      { st with state := "open", lastTransition := t } := by
  constructor
  · exact half_open_success_run cfg ts st hst (by omega) (by omega)
  · unfold updateCircuitBreaker
    rw [if_neg (show ¬st.state = "open" by rw [hst]; decide), if_pos hst,
      if_neg (show ¬(false = true) by decide)]

/-- Witness for C3: threshold 2, two successes close the breaker; one
failure reopens it. -/
theorem C3_half_open_recovery_witness :
    (let st' := [5, 7].foldl
        (fun acc u => updateCircuitBreaker ⟨2, 2, 100⟩ acc true u)
        ⟨"half-open", 1, 0, 0, 0⟩
     st'.state = "closed" ∧ st'.failures = 0 ∧ st'.successes = 0) ∧
    updateCircuitBreaker ⟨2, 2, 100⟩ ⟨"half-open", 1, 0, 0, 0⟩ false 9 =
      ⟨"open", 1, 0, 0, 9⟩ := by
  exact C3_half_open_recovery ⟨2, 2, 100⟩ ⟨"half-open", 1, 0, 0, 0⟩ 9 [5, 7]
    rfl (by decide) rfl (by decide)

/-! ## Claim C1 -/

/-- Run invariant for an armed scenario in the closed state whose
responses are all 5xx and never probability-gated: every request is
served and counted as a breaker failure; the breaker stays closed with
an exact failure count while below the threshold, and is open once the
count reaches it. -/
theorem closed_failure_run :
    ∀ (inputs : List (Int × ℚ)) (s : Scenario),
    (∀ r ∈ s.responses, 500 ≤ r.status ∧ ¬(0 < r.probability ∧ r.probability < 1)) →
    s.index < s.responses.length →
    s.cbState.state = "closed" →
    0 < s.circuitBreaker.failureThreshold →
    s.cbState.failures + inputs.length ≤ s.circuitBreaker.failureThreshold →
    (runSteps s inputs).responses = s.responses ∧
    (runSteps s inputs).circuitBreaker = s.circuitBreaker ∧
    (runSteps s inputs).index < (runSteps s inputs).responses.length ∧
    (s.cbState.failures + inputs.length < s.circuitBreaker.failureThreshold →
      (runSteps s inputs).cbState.state = "closed" ∧
      (runSteps s inputs).cbState.failures = s.cbState.failures + inputs.length) ∧
    (s.cbState.failures + inputs.length = s.circuitBreaker.failureThreshold →
      0 < inputs.length →
      (runSteps s inputs).cbState.state = "open")
  | [], s => by
    intro _ hidx hstate _ _
    refine ⟨rfl, rfl, hidx, ?_, ?_⟩
    · intro _
      exact ⟨hstate, by simp [runSteps]⟩
    · intro _ hlen
      exact absurd hlen (by decide)
  | (t, d) :: rest, s => by
    intro hresp hidx hstate harm hcount
    have hne : s.cbState.state ≠ "open" := by rw [hstate]; decide
    have hmem : s.responses.getD s.index defaultResponse ∈ s.responses :=
      getD_mem_of_lt _ _ _ hidx
    obtain ⟨hstat, hgate⟩ := hresp _ hmem
    have hlen0 : 0 < s.responses.length := Nat.lt_of_le_of_lt (Nat.zero_le _) hidx
    have hgate' : ¬((s.responses.getD s.index defaultResponse).probability > 0 ∧
        (s.responses.getD s.index defaultResponse).probability < 1 ∧
        d > (s.responses.getD s.index defaultResponse).probability) := by
      intro hcontra
      exact hgate ⟨hcontra.1, hcontra.2.1⟩
    have hdec : decide (500 ≤ (s.responses.getD s.index defaultResponse).status) = true :=
      decide_eq_true hstat
    have hstep := handleScenarioStep_served s t d hne hgate'
    rw [show runSteps s ((t, d) :: rest) =
      runSteps (handleScenarioStep s t d).scenario rest from rfl, hstep]
    rw [if_pos harm, hdec, Bool.not_true]
    simp only [List.length_cons] at hcount
    rw [updateCircuitBreaker_closed_failure _ _ _ hstate]
    by_cases hful : s.cbState.failures + 1 ≥ s.circuitBreaker.failureThreshold
    · -- the breaker opens on this request; no further request fits the budget
      have hrest : rest = [] := by
        have : rest.length = 0 := by omega
        exact List.length_eq_zero.mp this
      subst hrest
      rw [if_pos hful]
      refine ⟨rfl, rfl, Nat.mod_lt _ hlen0, ?_, ?_⟩
      · intro hlt
        exfalso
        simp only [List.length_cons, List.length_nil] at hlt
        push_cast at hlt
        omega
      · intro _ _
        rfl
    · rw [if_neg hful]
      have hrec := closed_failure_run rest
        { s with index := (s.index + 1) % s.responses.length
                 cbState := { s.cbState with failures := s.cbState.failures + 1
                                             lastFailure := t } }
        hresp
        (Nat.mod_lt _ hlen0)
        hstate
        harm
        (by show s.cbState.failures + 1 + (rest.length : Int) ≤ _
            push_cast
            omega)
      refine ⟨hrec.1, hrec.2.1, hrec.2.2.1, ?_, ?_⟩
      · intro hlt
        have hlt' : s.cbState.failures + 1 + (rest.length : Int) <
            s.circuitBreaker.failureThreshold := by
          simp only [List.length_cons] at hlt
          push_cast at hlt
          omega
        obtain ⟨hA, hB⟩ := hrec.2.2.2.1 hlt'
        refine ⟨hA, hB.trans ?_⟩
        show s.cbState.failures + 1 + (rest.length : Int) = _
        simp only [List.length_cons]
        push_cast
        ring
      · intro heq hlen
        simp only [List.length_cons] at heq
        by_cases hrl : 0 < rest.length
        · exact hrec.2.2.2.2
            (show s.cbState.failures + 1 + (rest.length : Int) = _ by
              push_cast at heq ⊢
              omega)
            hrl
        · exfalso
          have hz : rest.length = 0 := by omega
          rw [hz] at heq
          push_cast at heq
          omega

/-- C1: an armed scenario whose breaker starts closed with no recorded
failures opens its breaker after `failureThreshold` consecutive served
failures (all responses 5xx and never probability-gated), and the very
next request within the open-state timeout is short-circuited
(outcome blocked, so no response is selected) with the response cursor
unchanged. -/
theorem C1_breaker_trip_short_circuit
    (s : Scenario) (inputs : List (Int × ℚ)) (t : Int) (d : ℚ)
    (hresp : ∀ r ∈ s.responses, 500 ≤ r.status ∧ ¬(0 < r.probability ∧ r.probability < 1))
    (hidx : s.index < s.responses.length)
    (hstate : s.cbState.state = "closed")
    (hfail : s.cbState.failures = 0)
    (harm : 0 < s.circuitBreaker.failureThreshold)
    (hlen : (inputs.length : Int) = s.circuitBreaker.failureThreshold) :
    (runSteps s inputs).cbState.state = "open" ∧
    (t - (runSteps s inputs).cbState.lastTransition ≤ s.circuitBreaker.timeout →
      (handleScenarioStep (runSteps s inputs) t d).outcome = .blocked ∧
      (handleScenarioStep (runSteps s inputs) t d).scenario.index =
        (runSteps s inputs).index) := by
  have hrun := closed_failure_run inputs s hresp hidx hstate harm (by omega)
  have hopen : (runSteps s inputs).cbState.state = "open" :=
    hrun.2.2.2.2 (by omega) (by omega)
  refine ⟨hopen, fun hwithin => ?_⟩
  have harm' : 0 < (runSteps s inputs).circuitBreaker.failureThreshold := by
    rw [hrun.2.1]
    exact harm
  have hwithin' : t - (runSteps s inputs).cbState.lastTransition ≤
      (runSteps s inputs).circuitBreaker.timeout := by
    rw [hrun.2.1]
    exact hwithin
  rw [handleScenarioStep_open_within _ t d harm' hopen hwithin']
  exact ⟨rfl, rfl⟩

/-- Witness for C1: threshold 2, one always-firing 500 response; two
requests trip the breaker and the third inside the timeout is blocked
with the cursor still where the second request left it. -/
theorem C1_breaker_trip_short_circuit_witness :
    (runSteps
      ⟨"/t", "GET", ⟨[], [], ""⟩, [⟨500, 0, "", "", [], false, 0⟩],
        ⟨2, 1, 100⟩, ⟨"closed", 0, 0, 0, 0⟩, 0⟩
      [(1, 0), (2, 0)]).cbState.state = "open" ∧
    (handleScenarioStep
      (runSteps
        ⟨"/t", "GET", ⟨[], [], ""⟩, [⟨500, 0, "", "", [], false, 0⟩],
          ⟨2, 1, 100⟩, ⟨"closed", 0, 0, 0, 0⟩, 0⟩
        [(1, 0), (2, 0)]) 3 0).outcome = .blocked := by
  have h := C1_breaker_trip_short_circuit
    ⟨"/t", "GET", ⟨[], [], ""⟩, [⟨500, 0, "", "", [], false, 0⟩],
      ⟨2, 1, 100⟩, ⟨"closed", 0, 0, 0, 0⟩, 0⟩
    [(1, 0), (2, 0)] 3 0
    (by decide) (by decide) rfl rfl (by decide) (by decide)
  exact ⟨h.1, (h.2 (by decide)).1⟩

/-! ## Claim C4 -/

/-- Cursor evolution over admitted, ungated requests of an unarmed
scenario: after `N` requests the cursor has advanced by `N` modulo the
response-list length, response list untouched. -/
theorem unarmed_run_index :
    ∀ (inputs : List (Int × ℚ)) (s : Scenario),
    (∀ r ∈ s.responses, ¬(0 < r.probability ∧ r.probability < 1)) →
    s.index < s.responses.length →
    s.circuitBreaker.failureThreshold ≤ 0 →
    s.cbState.state = "closed" →
    (runSteps s inputs).responses = s.responses ∧
    (runSteps s inputs).index = (s.index + inputs.length) % s.responses.length
  | [], s => by
    intro _ hidx _ _
    refine ⟨rfl, ?_⟩
    show s.index = (s.index + 0) % s.responses.length
    rw [Nat.add_zero, Nat.mod_eq_of_lt hidx]
  | (t, d) :: rest, s => by
    intro hresp hidx hft hstate
    have hne : s.cbState.state ≠ "open" := by rw [hstate]; decide
    have hlen0 : 0 < s.responses.length := Nat.lt_of_le_of_lt (Nat.zero_le _) hidx
    have hmem : s.responses.getD s.index defaultResponse ∈ s.responses :=
      getD_mem_of_lt _ _ _ hidx
    have hgate' : ¬((s.responses.getD s.index defaultResponse).probability > 0 ∧
        (s.responses.getD s.index defaultResponse).probability < 1 ∧
        d > (s.responses.getD s.index defaultResponse).probability) := by
      intro hcontra
      exact hresp _ hmem ⟨hcontra.1, hcontra.2.1⟩
    rw [show runSteps s ((t, d) :: rest) =
      runSteps (handleScenarioStep s t d).scenario rest from rfl,
      handleScenarioStep_served s t d hne hgate',
      if_neg (show ¬(s.circuitBreaker.failureThreshold > 0) by omega)]
    have hrec := unarmed_run_index rest
      { s with index := (s.index + 1) % s.responses.length }
      hresp (Nat.mod_lt _ hlen0) hft hstate
    refine ⟨hrec.1, hrec.2.trans ?_⟩
    show ((s.index + 1) % s.responses.length + rest.length) % s.responses.length = _
    rw [Nat.mod_add_mod, List.length_cons]
    congr 1
    omega

/-- C4: for a matched, admitted (unarmed breaker) and never-gated
scenario with a non-empty response list, each request serves the
response under the cursor and publishes `(idx + 1) mod len`; hence
after any run of `N` such requests the cursor has rotated in order,
wrapping at the end of the list. -/
theorem C4_cursor_rotation
    (s : Scenario) (now : Int) (draw : ℚ) (inputs : List (Int × ℚ))
    (hresp : ∀ r ∈ s.responses, ¬(0 < r.probability ∧ r.probability < 1))
    (hidx : s.index < s.responses.length)
    (hft : s.circuitBreaker.failureThreshold ≤ 0)
    (hstate : s.cbState.state = "closed") :
    (handleScenarioStep s now draw).outcome =
      .served (s.responses.getD s.index defaultResponse) ∧
    (handleScenarioStep s now draw).scenario.index =
      (s.index + 1) % s.responses.length ∧
    (runSteps s inputs).index = (s.index + inputs.length) % s.responses.length := by
  have hne : s.cbState.state ≠ "open" := by rw [hstate]; decide
  have hmem : s.responses.getD s.index defaultResponse ∈ s.responses :=
    getD_mem_of_lt _ _ _ hidx
  have hgate' : ¬((s.responses.getD s.index defaultResponse).probability > 0 ∧
      (s.responses.getD s.index defaultResponse).probability < 1 ∧
      draw > (s.responses.getD s.index defaultResponse).probability) := by
    intro hcontra
    exact hresp _ hmem ⟨hcontra.1, hcontra.2.1⟩
  rw [handleScenarioStep_served s now draw hne hgate']
  exact ⟨rfl, rfl, (unarmed_run_index inputs s hresp hidx hft hstate).2⟩

/-- Witness for C4: three responses, five requests; cursor lands on
index 2 and the first request serves response 0. -/
theorem C4_cursor_rotation_witness :
    (handleScenarioStep
      ⟨"/t", "GET", ⟨[], [], ""⟩,
        [⟨200, 0, "", "a", [], false, 0⟩, ⟨201, 0, "", "b", [], false, 0⟩,
         ⟨202, 0, "", "c", [], false, 0⟩],
        ⟨0, 0, 0⟩, ⟨"closed", 0, 0, 0, 0⟩, 0⟩ 1 0).outcome =
      .served ⟨200, 0, "", "a", [], false, 0⟩ ∧
    (runSteps
      ⟨"/t", "GET", ⟨[], [], ""⟩,
        [⟨200, 0, "", "a", [], false, 0⟩, ⟨201, 0, "", "b", [], false, 0⟩,
         ⟨202, 0, "", "c", [], false, 0⟩],
        ⟨0, 0, 0⟩, ⟨"closed", 0, 0, 0, 0⟩, 0⟩
      [(1, 0), (2, 0), (3, 0), (4, 0), (5, 0)]).index = 2 := by
  have h := C4_cursor_rotation
    ⟨"/t", "GET", ⟨[], [], ""⟩,
      [⟨200, 0, "", "a", [], false, 0⟩, ⟨201, 0, "", "b", [], false, 0⟩,
       ⟨202, 0, "", "c", [], false, 0⟩],
      ⟨0, 0, 0⟩, ⟨"closed", 0, 0, 0, 0⟩, 0⟩ 1 0
    [(1, 0), (2, 0), (3, 0), (4, 0), (5, 0)]
    (by decide) (by decide) (by decide) rfl
  exact ⟨h.1, h.2.2⟩

/-! ## Claims C5 and C6 -/

/-- C5: for the selected response, a probability strictly between 0
and 1 with a draw above it suppresses the response — the echo handler
answers and the breaker records a success — while a probability of 0
or at least 1 can never be suppressed by any draw. -/
theorem C5_probability_gate
    (s : Scenario) (now : Int) (draw : ℚ)
    (hne : s.cbState.state ≠ "open") :
    (0 < (s.responses.getD s.index defaultResponse).probability →
      (s.responses.getD s.index defaultResponse).probability < 1 →
      draw > (s.responses.getD s.index defaultResponse).probability →
      (handleScenarioStep s now draw).outcome = .echoed ∧
      (handleScenarioStep s now draw).scenario.cbState =
        updateCircuitBreaker s.circuitBreaker s.cbState true now) ∧
    ((s.responses.getD s.index defaultResponse).probability = 0 ∨
      1 ≤ (s.responses.getD s.index defaultResponse).probability →
      (handleScenarioStep s now draw).outcome =
        .served (s.responses.getD s.index defaultResponse)) := by
  constructor
  · intro h1 h2 h3
    rw [handleScenarioStep_echoed s now draw hne ⟨h1, h2, h3⟩]
    exact ⟨rfl, rfl⟩
  · intro hp
    have hgate : ¬((s.responses.getD s.index defaultResponse).probability > 0 ∧
        (s.responses.getD s.index defaultResponse).probability < 1 ∧
        draw > (s.responses.getD s.index defaultResponse).probability) := by
      rcases hp with hp | hp
      · intro hcontra
        rw [hp] at hcontra
        exact absurd hcontra.1 (by norm_num)
      · intro hcontra
        exact absurd hcontra.2.1 (not_lt.mpr hp)
    rw [handleScenarioStep_served s now draw hne hgate]

/-- Witness for C5: probability 1/2 with draw 3/4 echoes; probability 0
always serves. -/
theorem C5_probability_gate_witness :
    (handleScenarioStep
      ⟨"/t", "GET", ⟨[], [], ""⟩, [⟨500, 0, "", "", [], false, (1 : ℚ) / 2⟩],
        ⟨0, 0, 0⟩, ⟨"closed", 0, 0, 0, 0⟩, 0⟩ 1 ((3 : ℚ) / 4)).outcome = .echoed ∧
    (handleScenarioStep
      ⟨"/t", "GET", ⟨[], [], ""⟩, [⟨500, 0, "", "", [], false, 0⟩],
        ⟨0, 0, 0⟩, ⟨"closed", 0, 0, 0, 0⟩, 0⟩ 1 ((3 : ℚ) / 4)).outcome =
      .served ⟨500, 0, "", "", [], false, 0⟩ := by
  refine ⟨?_, ?_⟩
  · exact ((C5_probability_gate
      ⟨"/t", "GET", ⟨[], [], ""⟩, [⟨500, 0, "", "", [], false, (1 : ℚ) / 2⟩],
        ⟨0, 0, 0⟩, ⟨"closed", 0, 0, 0, 0⟩, 0⟩ 1 ((3 : ℚ) / 4)
      (by decide)).1 (by norm_num) (by norm_num) (by norm_num)).1
  · exact (C5_probability_gate
      ⟨"/t", "GET", ⟨[], [], ""⟩, [⟨500, 0, "", "", [], false, 0⟩],
        ⟨0, 0, 0⟩, ⟨"closed", 0, 0, 0, 0⟩, 0⟩ 1 ((3 : ℚ) / 4)
      (by decide)).2 (Or.inl rfl)

/-- C6: a served response with a 4xx status increments the
`http_error` fault metric, yet the breaker update records it as a
success: the closed breaker stays closed and its failure counter is
not incremented (it is reset to 0). Only a final status of at least
500 is passed to the breaker as a failure. -/
theorem C6_4xx_metric_breaker_success
    (s : Scenario) (now : Int) (draw : ℚ)
    (hstate : s.cbState.state = "closed")
    (harm : 0 < s.circuitBreaker.failureThreshold)
    (h4 : 400 ≤ (s.responses.getD s.index defaultResponse).status)
    (h5 : (s.responses.getD s.index defaultResponse).status < 500)
    (hgate : ¬((s.responses.getD s.index defaultResponse).probability > 0 ∧
        (s.responses.getD s.index defaultResponse).probability < 1 ∧
        draw > (s.responses.getD s.index defaultResponse).probability)) :
    (handleScenarioStep s now draw).outcome =
      .served (s.responses.getD s.index defaultResponse) ∧
    (handleScenarioStep s now draw).httpErrorMetric = true ∧
    (handleScenarioStep s now draw).scenario.cbState =
      updateCircuitBreaker s.circuitBreaker s.cbState true now ∧
    (handleScenarioStep s now draw).scenario.cbState.state = "closed" ∧
    (handleScenarioStep s now draw).scenario.cbState.failures = 0 := by
  have hne : s.cbState.state ≠ "open" := by rw [hstate]; decide
  rw [handleScenarioStep_served s now draw hne hgate]
  have hdec : decide (500 ≤ (s.responses.getD s.index defaultResponse).status) = false :=
    decide_eq_false (by omega)
  have hcb : (if s.circuitBreaker.failureThreshold > 0 then
      updateCircuitBreaker s.circuitBreaker s.cbState
        (!decide (500 ≤ (s.responses.getD s.index defaultResponse).status)) now
    else s.cbState) = updateCircuitBreaker s.circuitBreaker s.cbState true now := by
    rw [if_pos harm, hdec, Bool.not_false]
  refine ⟨rfl, ?_, ?_, ?_, ?_⟩
  · show (if (s.responses.getD s.index defaultResponse).status ≥ 500 then true
      else decide ((s.responses.getD s.index defaultResponse).status ≥ 400)) = true
    rw [if_neg (by omega)]
    exact decide_eq_true (by omega)
  · exact hcb
  · show (if s.circuitBreaker.failureThreshold > 0 then
        updateCircuitBreaker s.circuitBreaker s.cbState
          (!decide (500 ≤ (s.responses.getD s.index defaultResponse).status)) now
      else s.cbState).state = "closed"
    rw [hcb, updateCircuitBreaker_closed_success _ _ _ hstate]
    exact hstate
  · show (if s.circuitBreaker.failureThreshold > 0 then
        updateCircuitBreaker s.circuitBreaker s.cbState
          (!decide (500 ≤ (s.responses.getD s.index defaultResponse).status)) now
      else s.cbState).failures = 0
    rw [hcb, updateCircuitBreaker_closed_success _ _ _ hstate]

/-- Witness for C6 at a 404 response under an armed closed breaker. -/
theorem C6_4xx_metric_breaker_success_witness :
    (handleScenarioStep
      ⟨"/t", "GET", ⟨[], [], ""⟩, [⟨404, 0, "", "", [], false, 0⟩],
        ⟨2, 1, 100⟩, ⟨"closed", 1, 0, 0, 0⟩, 0⟩ 1 0).httpErrorMetric = true ∧
    (handleScenarioStep
      ⟨"/t", "GET", ⟨[], [], ""⟩, [⟨404, 0, "", "", [], false, 0⟩],
        ⟨2, 1, 100⟩, ⟨"closed", 1, 0, 0, 0⟩, 0⟩ 1 0).scenario.cbState.state =
      "closed" ∧
    (handleScenarioStep
      ⟨"/t", "GET", ⟨[], [], ""⟩, [⟨404, 0, "", "", [], false, 0⟩],
        ⟨2, 1, 100⟩, ⟨"closed", 1, 0, 0, 0⟩, 0⟩ 1 0).scenario.cbState.failures = 0 := by
  have h := C6_4xx_metric_breaker_success
    ⟨"/t", "GET", ⟨[], [], ""⟩, [⟨404, 0, "", "", [], false, 0⟩],
      ⟨2, 1, 100⟩, ⟨"closed", 1, 0, 0, 0⟩, 0⟩ 1 0
    rfl (by decide) (by decide) (by decide) (by decide)
  exact ⟨h.2.1, h.2.2.2.1, h.2.2.2.2⟩

/-! ## Claim C8 -/

/-- C8: a scenario with no `matches` clause matches every request;
candidates registered under a key are tried in insertion order with the
first match winning; and when no candidate matches, the dispatcher
falls back to the echo handler. -/
theorem C8_matcher_precedence_and_fallback
    (rx : String → String → Bool) (r : HttpRequest) (m : MatchConfig)
    (sc : Scenario) (l : List Scenario)
    (hh : m.headers = []) (hq : m.query = []) (hb : m.body = "") :
    matchesRequest rx m r = true ∧
    findScenario rx (sc :: l) r =
      (if matchesRequest rx sc.matchRules r then some sc
       else findScenario rx l r) ∧
    ((∀ s ∈ l, matchesRequest rx s.matchRules r = false) →
      dispatchScenarios rx l r = .echo) := by
  refine ⟨?_, ?_, ?_⟩
  · unfold matchesRequest
    rw [hh, hq, hb]
    simp
  · unfold findScenario
    by_cases hm : matchesRequest rx sc.matchRules r = true
    · rw [if_pos hm]
      exact List.find?_cons_of_pos l hm
    · rw [if_neg hm]
      exact List.find?_cons_of_neg l (by simpa using hm)
  · intro hnone
    unfold dispatchScenarios findScenario
    rw [List.find?_eq_none.mpr (by
      intro s hs
      simp [hnone s hs])]

/-- Witness for C8: a header-matching scenario M1 before a no-clause
scenario M2; a request with the header selects M1, one without selects
M2, and an empty candidate list echoes. -/
theorem C8_matcher_precedence_and_fallback_witness :
    matchesRequest (fun _ _ => false) ⟨[], [], ""⟩
      ⟨"GET", "/m", [], [], none⟩ = true ∧
    findScenario (fun _ _ => false)
      [⟨"/m", "GET", ⟨[("X-Test", "A")], [], ""⟩, [⟨201, 0, "", "", [], false, 0⟩],
          ⟨0, 0, 0⟩, ⟨"closed", 0, 0, 0, 0⟩, 0⟩,
        ⟨"/m", "GET", ⟨[], [], ""⟩, [⟨200, 0, "", "", [], false, 0⟩],
          ⟨0, 0, 0⟩, ⟨"closed", 0, 0, 0, 0⟩, 0⟩]
      ⟨"GET", "/m", [("X-Test", ["A"])], [], none⟩ =
      some ⟨"/m", "GET", ⟨[("X-Test", "A")], [], ""⟩, [⟨201, 0, "", "", [], false, 0⟩],
          ⟨0, 0, 0⟩, ⟨"closed", 0, 0, 0, 0⟩, 0⟩ ∧
    findScenario (fun _ _ => false)
      [⟨"/m", "GET", ⟨[("X-Test", "A")], [], ""⟩, [⟨201, 0, "", "", [], false, 0⟩],
          ⟨0, 0, 0⟩, ⟨"closed", 0, 0, 0, 0⟩, 0⟩,
        ⟨"/m", "GET", ⟨[], [], ""⟩, [⟨200, 0, "", "", [], false, 0⟩],
          ⟨0, 0, 0⟩, ⟨"closed", 0, 0, 0, 0⟩, 0⟩]
      ⟨"GET", "/m", [], [], none⟩ =
      some ⟨"/m", "GET", ⟨[], [], ""⟩, [⟨200, 0, "", "", [], false, 0⟩],
          ⟨0, 0, 0⟩, ⟨"closed", 0, 0, 0, 0⟩, 0⟩ ∧
    dispatchScenarios (fun _ _ => false) []
      ⟨"GET", "/m", [], [], none⟩ = .echo := by
  have h1 := C8_matcher_precedence_and_fallback (fun _ _ => false)
    ⟨"GET", "/m", [("X-Test", ["A"])], [], none⟩ ⟨[], [], ""⟩
    ⟨"/m", "GET", ⟨[("X-Test", "A")], [], ""⟩, [⟨201, 0, "", "", [], false, 0⟩],
      ⟨0, 0, 0⟩, ⟨"closed", 0, 0, 0, 0⟩, 0⟩
    [⟨"/m", "GET", ⟨[], [], ""⟩, [⟨200, 0, "", "", [], false, 0⟩],
      ⟨0, 0, 0⟩, ⟨"closed", 0, 0, 0, 0⟩, 0⟩]
    rfl rfl rfl
  have h2 := C8_matcher_precedence_and_fallback (fun _ _ => false)
    ⟨"GET", "/m", [], [], none⟩ ⟨[], [], ""⟩
    ⟨"/m", "GET", ⟨[("X-Test", "A")], [], ""⟩, [⟨201, 0, "", "", [], false, 0⟩],
      ⟨0, 0, 0⟩, ⟨"closed", 0, 0, 0, 0⟩, 0⟩
    [⟨"/m", "GET", ⟨[], [], ""⟩, [⟨200, 0, "", "", [], false, 0⟩],
      ⟨0, 0, 0⟩, ⟨"closed", 0, 0, 0, 0⟩, 0⟩]
    rfl rfl rfl
  have h3 := C8_matcher_precedence_and_fallback (fun _ _ => false)
    ⟨"GET", "/m", [], [], none⟩ ⟨[], [], ""⟩
    ⟨"/m", "GET", ⟨[], [], ""⟩, [⟨200, 0, "", "", [], false, 0⟩],
      ⟨0, 0, 0⟩, ⟨"closed", 0, 0, 0, 0⟩, 0⟩
    [] rfl rfl rfl
  refine ⟨h2.1, h1.2.1.trans (by decide), h2.2.1.trans (by decide),
    h3.2.2 (by decide)⟩

/-! ## Claim C10 -/

/-- C10: a request carrying a non-empty `X-Request-ID: X` keeps `X` as
its ID — echoed on the response header, stored in the history record,
counter untouched — while a request without the header gets the decimal
rendering of the atomically incremented 64-bit global counter. -/
theorem C10_request_id_roundtrip (counter : Nat) (x : String) (hx : x ≠ "") :
    (requestIDStep counter x).id = x ∧
    (requestIDStep counter x).respHeader = x ∧
    (requestIDStep counter x).counter = counter ∧
    pipelineRecordID counter x = x ∧
    (requestIDStep counter "").id = toString ((counter + 1) % 2 ^ 64) ∧
    (requestIDStep counter "").respHeader = toString ((counter + 1) % 2 ^ 64) ∧
    (requestIDStep counter "").counter = (counter + 1) % 2 ^ 64 ∧
    pipelineRecordID counter "" = toString ((counter + 1) % 2 ^ 64) := by
  unfold pipelineRecordID loggingRecordID requestIDStep
  rw [if_neg hx, if_pos rfl]
  exact ⟨rfl, rfl, rfl, rfl, rfl, rfl, rfl, rfl⟩

/-- Witness for C10 at counter 5 with header value "abc". -/
theorem C10_request_id_roundtrip_witness :
    (requestIDStep 5 "abc").id = "abc" ∧
    (requestIDStep 5 "abc").respHeader = "abc" ∧
    pipelineRecordID 5 "abc" = "abc" ∧
    (requestIDStep 5 "").counter = (5 + 1) % 2 ^ 64 := by
  have h := C10_request_id_roundtrip 5 "abc" (by decide)
  exact ⟨h.1, h.2.1, h.2.2.2.1, h.2.2.2.2.2.2.1⟩

/-! ## Claim C9 -/

/-- The history length never exceeds a positive capacity once it is
within it. -/
theorem recordRequest_length_run (cap : Int) (hcap : 0 < cap) :
    ∀ (recs hist : List RequestRecord),
    (hist.length : Int) ≤ cap →
    ((recs.foldl (recordRequest cap) hist).length : Int) ≤ cap
  | [], _ => fun h => h
  | r :: rest, hist => by
    intro h
    rw [List.foldl_cons]
    apply recordRequest_length_run cap hcap rest
    unfold recordRequest
    by_cases hful : cap ≤ (hist.length : Int)
    · rw [if_pos hful]
      simp only [List.length_append, List.length_drop, List.length_cons,
        List.length_nil]
      push_cast
      omega
    · rw [if_neg hful]
      simp only [List.length_append, List.length_cons, List.length_nil]
      push_cast
      omega

/-- Once at least `cap` records have gone through a buffer within
capacity, the buffer is exactly the suffix of the records holding the
most recent `cap` of them, in order. -/
theorem recordRequest_suffix_run (cap : Int) (hcap : 0 < cap) :
    ∀ (recs hist : List RequestRecord),
    (hist.length : Int) ≤ cap →
    cap ≤ ((hist.length + recs.length : Nat) : Int) →
    recs.foldl (recordRequest cap) hist =
      (hist ++ recs).drop (hist.length + recs.length - cap.toNat)
  | [], hist => by
    intro h1 h2
    simp only [List.length_nil, List.foldl_nil, List.append_nil, Nat.add_zero]
    rw [show hist.length - cap.toNat = 0 from by omega, List.drop_zero]
  | r :: rest, hist => by
    intro h1 h2
    rw [List.foldl_cons]
    by_cases hful : cap ≤ (hist.length : Int)
    · have hne : hist ≠ [] := by
        intro hnil
        rw [hnil] at hful
        simp only [List.length_nil, Nat.cast_zero] at hful
        omega
      obtain ⟨hd, tl, rfl⟩ := List.exists_cons_of_ne_nil hne
      have hstep : recordRequest cap (hd :: tl) r = tl ++ [r] := by
        unfold recordRequest
        rw [if_pos hful]
        rfl
      rw [hstep]
      simp only [List.length_cons] at h1 h2 hful
      rw [recordRequest_suffix_run cap hcap rest (tl ++ [r])
        (by simp only [List.length_append, List.length_cons, List.length_nil]
            push_cast at h1 ⊢
            omega)
        (by simp only [List.length_append, List.length_cons, List.length_nil]
            push_cast at hful ⊢
            omega)]
      simp only [List.length_append, List.length_cons, List.length_nil,
        List.append_assoc, List.singleton_append, List.cons_append]
      rw [show tl.length + 1 + (rest.length + 1) - cap.toNat =
        (tl.length + 1 + rest.length - cap.toNat) + 1 from by
          push_cast at hful
          omega]
      rw [List.drop_succ_cons]
      simp
    · have hstep : recordRequest cap hist r = hist ++ [r] := by
        unfold recordRequest
        rw [if_neg hful]
      rw [hstep]
      simp only [List.length_cons] at h2
      rw [recordRequest_suffix_run cap hcap rest (hist ++ [r])
        (by simp only [List.length_append, List.length_cons, List.length_nil]
            push_cast at hful ⊢
            omega)
        (by simp only [List.length_append, List.length_cons, List.length_nil]
            push_cast at h2 ⊢
            omega)]
      simp only [List.length_append, List.length_cons, List.length_nil,
        List.append_assoc, List.singleton_append, List.cons_append]
      congr 1
      omega

/-- C9: the history is a bounded FIFO. Starting from an empty buffer,
after every sequence of appends the length stays within a positive
`HistorySize`, and once at least `HistorySize` requests have been
recorded the buffer holds exactly the most recent `HistorySize`
records, in completion order. -/
theorem C9_history_bounded_fifo (cap : Int) (recs : List RequestRecord)
    (hcap : 0 < cap) :
    ((recs.foldl (recordRequest cap) []).length : Int) ≤ cap ∧
    (cap ≤ (recs.length : Int) →
      recs.foldl (recordRequest cap) [] =
        recs.drop (recs.length - cap.toNat)) := by
  constructor
  · exact recordRequest_length_run cap hcap recs []
      (by simp only [List.length_nil, Nat.cast_zero]; omega)
  · intro hK
    have := recordRequest_suffix_run cap hcap recs []
      (by simp only [List.length_nil, Nat.cast_zero]; omega)
      (by simpa using hK)
    simpa using this

/-- Witness for C9: capacity 2, three records; the buffer keeps the
last two in order. -/
theorem C9_history_bounded_fifo_witness :
    ((([⟨"1", 1, "GET", "/a", "", 200, ""⟩, ⟨"2", 2, "GET", "/b", "", 200, ""⟩,
        ⟨"3", 3, "GET", "/c", "", 200, ""⟩] :
        List RequestRecord).foldl (recordRequest 2) []).length : Int) ≤ 2 ∧
    ([⟨"1", 1, "GET", "/a", "", 200, ""⟩, ⟨"2", 2, "GET", "/b", "", 200, ""⟩,
        ⟨"3", 3, "GET", "/c", "", 200, ""⟩] :
        List RequestRecord).foldl (recordRequest 2) [] =
      [⟨"2", 2, "GET", "/b", "", 200, ""⟩, ⟨"3", 3, "GET", "/c", "", 200, ""⟩] := by
  have h := C9_history_bounded_fifo 2
    [⟨"1", 1, "GET", "/a", "", 200, ""⟩, ⟨"2", 2, "GET", "/b", "", 200, ""⟩,
      ⟨"3", 3, "GET", "/c", "", 200, ""⟩] (by decide)
  exact ⟨h.1, (h.2 (by decide)).trans (by decide)⟩

/-! ## Claim C7 -/

/-- The segment loop of `matchPath` succeeds exactly when the spec's
segment compatibility holds, regardless of the accumulated variables. -/
theorem matchSegsAux_isSome :
    ∀ (ts ps : List (List Char)) (vs : List (String × String)),
    (matchSegsAux ts ps vs).isSome = specSegMatch ts ps
  | [], [], _ => rfl
  | [], _ :: _, _ => rfl
  | _ :: _, [], _ => rfl
  | t :: ts, p :: ps, vs => by
    unfold matchSegsAux specSegMatch
    by_cases ht : isTemplateSeg t = true
    · rw [if_pos ht, if_pos ht, matchSegsAux_isSome ts ps, Bool.true_and]
    · rw [if_neg ht, if_neg ht]
      by_cases htp : t = p
      · rw [if_pos htp, matchSegsAux_isSome ts ps, decide_eq_true htp,
          Bool.true_and]
      · rw [if_neg htp, decide_eq_false htp, Bool.false_and]
        rfl

/-- Segment compatibility forces equal segment counts. -/
theorem specSegMatch_length :
    ∀ (ts ps : List (List Char)), specSegMatch ts ps = true →
      ts.length = ps.length
  | [], [], _ => rfl
  | [], _ :: _, h => by simp [specSegMatch] at h
  | _ :: _, [], h => by simp [specSegMatch] at h
  | _ :: ts, _ :: ps, h => by
    unfold specSegMatch at h
    rw [Bool.and_eq_true] at h
    simp only [List.length_cons, specSegMatch_length ts ps h.2]

/-- A successful segment loop returns exactly the captures of the
template segments, folded into the variable map in order. -/
theorem matchSegsAux_captures :
    ∀ (ts ps : List (List Char)) (vs out : List (String × String)),
    matchSegsAux ts ps vs = some out →
    out = (captures ts ps).foldl (fun a kv => upsertVar a kv.1 kv.2) vs
  | [], [], vs, out => by
    intro h
    rw [show out = vs from (Option.some_inj.mp h).symm]
    rfl
  | [], _ :: _, _, _ => by
    intro h
    exact absurd h (by simp [matchSegsAux])
  | _ :: _, [], _, _ => by
    intro h
    exact absurd h (by simp [matchSegsAux])
  | t :: ts, p :: ps, vs, out => by
    intro h
    unfold matchSegsAux at h
    unfold captures
    rw [List.zip_cons_cons, List.filterMap_cons]
    by_cases ht : isTemplateSeg t = true
    · rw [if_pos ht] at h
      rw [show (if isTemplateSeg (t, p).1 then
          some (varKey (t, p).1, String.mk (t, p).2) else none) =
          some (varKey t, String.mk p) from by rw [if_pos ht]]
      rw [List.foldl_cons]
      exact matchSegsAux_captures ts ps _ out h
    · rw [if_neg ht] at h
      rw [show (if isTemplateSeg (t, p).1 then
          some (varKey (t, p).1, String.mk (t, p).2) else none) = none from
          by rw [if_neg ht]]
      by_cases htp : t = p
      · rw [if_pos htp] at h
        exact matchSegsAux_captures ts ps _ out h
      · rw [if_neg htp] at h
        exact absurd h (by simp)

/-- C7 (amended): the template matcher succeeds iff, after trimming
leading and trailing slashes and splitting both paths on "/", the
segment counts are equal and every non-template segment of the template
equals the corresponding path segment; on success the variables are
exactly the `\x7bname\x7d` captures folded into the map in order. The
examples of the claim hold, and a request matching no exact key and no
registered template is answered 404 by the catch-all. -/
theorem C7_path_template_matching
    (T P : String) (vs : List (String × String))
    (keys : List String) (path method : String) :
    (matchPath T P).isSome = specSegMatch (normSegs T) (normSegs P) ∧
    (matchPath T P = some vs →
      vs = (captures (normSegs T) (normSegs P)).foldl
        (fun a kv => upsertVar a kv.1 kv.2) []) ∧
    matchPath "/a/\x7bid\x7d" "/a/42" = some [("id", "42")] ∧
    matchPath "/a/\x7bid\x7d" "/a/42/x" = none ∧
    matchPath "/a/\x7bid\x7d" "/b/42" = none ∧
    (keys.contains (path ++ "_" ++ method) = false →
      (∀ k ∈ keys, ∀ tmpl m, keyParts k = [tmpl, m] → m = method →
        containsBrace tmpl = true → matchPath tmpl path = none) →
      resolveCatchAll keys path method = .notFound) := by
  have hmp : matchPath T P =
      (if (normSegs T).length = (normSegs P).length then
        matchSegsAux (normSegs T) (normSegs P) []
      else
        none) := rfl
  refine ⟨?_, ?_, by decide, by decide, by decide, ?_⟩
  · rw [hmp]
    by_cases hl : (normSegs T).length = (normSegs P).length
    · rw [if_pos hl]
      exact matchSegsAux_isSome _ _ _
    · rw [if_neg hl]
      rcases hsp : specSegMatch (normSegs T) (normSegs P) with _ | _
      · rfl
      · exact absurd (specSegMatch_length _ _ hsp) hl
  · intro h
    rw [hmp] at h
    by_cases hl : (normSegs T).length = (normSegs P).length
    · rw [if_pos hl] at h
      exact matchSegsAux_captures _ _ _ _ h
    · rw [if_neg hl] at h
      exact absurd h (by simp)
  · intro hex htmpl
    suffices hnone : (keys.findSome? (fun k =>
        match keyParts k with
        | [tmplPath, m] =>
          if m = method ∧ containsBrace tmplPath then
            (matchPath tmplPath path).map (fun vs => (tmplPath, vs))
          else
            none
        | _ => none)) = none by
      unfold resolveCatchAll
      rw [if_neg (by rw [hex]; exact Bool.false_ne_true), hnone]
    refine List.findSome?_eq_none_iff.mpr ?_
    intro k hk
    rcases hkp : keyParts k with _ | ⟨tmpl, _ | ⟨m, _ | _⟩⟩
    · rfl
    · rfl
    · show (if m = method ∧ containsBrace tmpl = true then
          (matchPath tmpl path).map (fun vs => (tmpl, vs))
        else
          none) = none
      by_cases hcond : m = method ∧ containsBrace tmpl = true
      · rw [if_pos hcond, htmpl k hk tmpl m hkp hcond.1 hcond.2]
        rfl
      · rw [if_neg hcond]
    · rfl

/-- Counterexample to C7 as frozen: with template "/a/\x7bid\x7d" and
request path "/a/42/", the code's matcher succeeds, while the claim's
characterization — equal segment counts after splitting the raw paths
on "/" — is false (3 segments versus 4). -/
theorem C7_rawsplit_counterexample :
    (matchPath "/a/\x7bid\x7d" "/a/42/").isSome = true ∧
    claimRawSegMatch "/a/\x7bid\x7d" "/a/42/" = false := by
  exact ⟨by decide, by decide⟩

/-- Witness for C7 at concrete values: the iff and the capture shape at
template "/x/\x7bv\x7d" and path "/x/9", plus a 404 from a registry
holding only "/q_GET" for an unrelated path. -/
theorem C7_path_template_matching_witness :
    (matchPath "/x/\x7bv\x7d" "/x/9").isSome =
      specSegMatch (normSegs "/x/\x7bv\x7d") (normSegs "/x/9") ∧
    ([("v", "9")] : List (String × String)) =
      (captures (normSegs "/x/\x7bv\x7d") (normSegs "/x/9")).foldl
        (fun a kv => upsertVar a kv.1 kv.2) [] ∧
    resolveCatchAll ["/q_GET"] "/zz" "GET" = .notFound := by
  have h := C7_path_template_matching "/x/\x7bv\x7d" "/x/9" [("v", "9")]
    ["/q_GET"] "/zz" "GET"
  refine ⟨h.1, h.2.1 (by decide), h.2.2.2.2.2 (by decide) ?_⟩
  intro k hk tmpl m hkp hm hbr
  exfalso
  have hk' : k = "/q_GET" := by simpa using hk
  subst hk'
  rw [show keyParts "/q_GET" = ["/q", "GET"] from by decide] at hkp
  have htm : "/q" = tmpl := by
    simpa using congrArg (fun l => l.headD "") hkp
  rw [← htm] at hbr
  exact absurd hbr (by decide)

end ResilienceMock
